import Mathlib

/-!
Shallow embedding of the TreeCoin RPC gateway (`src/rpc/RpcServer.cpp`):
the middleware pipeline, the `failRequest` error envelope, and the
`info`, `sendTransaction` and `getRandomOuts` handlers, together with
theorems about their request/response behaviour.

External collaborators (Ledger, PeerNet, SyncManager, hex/hash codecs)
are modelled as record-of-functions environments, matching the fixed
interfaces the gateway calls.
-/

namespace TreeCoin

/-- JSON values, as produced by the rapidjson writers in the source. -/
inductive JValue where
  | str (s : String)
  | num (n : Nat)
  | bool (b : Bool)
  | arr (elems : List JValue)
  | obj (fields : List (String × JValue))

/-- Field lookup in a JSON object (first binding wins, as rapidjson writes keys in order). -/
def JValue.getField : JValue → String → Option JValue
  | .obj fields, key => fields.lookup key
  | _, _ => none

/-- Modelled from the spec: the typed `Error` result of §3 — a numeric code with a
message, where code 0 is the zero-cost success sentinel whose truthiness call sites
test (`if (error)` in the source). The concrete `Error` class is declared outside
the shown sources. -/
structure Error where
  errorCode : Nat
  errorMessage : String
  deriving DecidableEq, Repr

/-- The success sentinel returned by handlers that did not fail. -/
def SUCCESS : Error := ⟨0, ""⟩

/-- Truthiness of an `Error`, as used by `if (error)` in the middleware. -/
def Error.isError (e : Error) : Bool := e.errorCode != 0

/-- Modelled from the spec: the domain-specific error code for random-output
shortfall (§4.7), distinct from the success sentinel and from generic failure;
its numeric value is declared outside the shown sources — only its distinctness
is relied on. -/
def CANT_GET_FAKE_OUTPUTS : Nat := 90

/-- Modelled from the spec (§3): the ordered permission enumeration
{Default, BlockExplorerEnabled, AllMethodsEnabled}; declared outside the
shown sources, compared by underlying value in the middleware. -/
inductive RpcMode where
  | Default
  | BlockExplorerEnabled
  | AllMethodsEnabled
  deriving DecidableEq, Repr

/-- Underlying enum value of a permission level. -/
def RpcMode.toNat : RpcMode → Nat
  | .Default => 0
  | .BlockExplorerEnabled => 1
  | .AllMethodsEnabled => 2

/-- The comparison `a > b` on permission levels (`routePermissions > m_rpcMode`). -/
def RpcMode.gt (a b : RpcMode) : Bool := b.toNat < a.toNat

/-- Log severity levels used by the gateway. -/
inductive LogLevel where
  | DEBUG
  | INFO
  | FATAL
  deriving DecidableEq, Repr

/-- An HTTP response: final status code and JSON content (none when no
`set_content` call happened). -/
structure Response where
  status : Nat
  content : Option JValue

/-- The fixed failure envelope body written by `RpcServer::failRequest`. -/
def failRequestBody (body : String) : JValue :=
  .obj [("status", .str "Failed"), ("error", .str body)]

/-- `RpcServer::failRequest`: sets the envelope content and the given status. -/
def failRequest (port : Nat) (body : String) : Response :=
  { status := port, content := some (failRequestBody body) }

/-- The fixed parse-failure message appended to the stream in the middleware. -/
def parseFailureMessage : String := "Failed to parse request body as JSON"

/-- The diagnostic warning streamed (and logged) when a non-empty body fails to parse. -/
def bodyWarning (body : String) : String :=
  "Warning: received body is not JSON encoded!\n" ++
  "Key/value parameters are NOT supported.\n" ++
  "Body:\n" ++ body

/-- The permission-rejection message, a function of the required level. -/
def permissionMessage (routePermissions : RpcMode) : String :=
  "You do not have permission to access this method. Please " ++
  "relaunch your daemon with the --enable-blockexplorer" ++
  (if routePermissions = RpcMode.AllMethodsEnabled then "-detailed" else "") ++
  " command line option to access this method."

/-- The canonical handler-error envelope the middleware writes for an error result. -/
def errorEnvelope (e : Error) : JValue :=
  .obj [("errorCode", .num e.errorCode), ("errorMessage", .str e.errorMessage)]

/-- Outcome of invoking a bound handler: a normal `(Error, statusCode)` return
together with whatever content the handler set on the response, or one of the
two exception classes the middleware catches. -/
inductive HandlerOutcome where
  | result (error : Error) (statusCode : Nat) (content : Option JValue)
  | invalidArgument (msg : String)
  | otherException (msg : String)

/-- `RpcServer::middleware`: body-parse gate, permission gate, handler
invocation, error normalisation and exception containment. Returns the final
response and the list of log events emitted. `parseOk` is whether the raw body
parses as JSON; the handler is a thunk so that non-invocation is observable. -/
def middleware (method path : String) (m_rpcMode routePermissions : RpcMode)
    (bodyRequired : Bool) (rawBody : String) (parseOk : Bool)
    (handler : Unit → HandlerOutcome) : Response × List (LogLevel × String) :=
  let incoming : LogLevel × String :=
    (LogLevel.DEBUG, "Incoming " ++ method ++ " request: " ++ path)
  if bodyRequired && !parseOk then
    if rawBody ≠ "" then
      (failRequest 400 (bodyWarning rawBody ++ parseFailureMessage),
       [incoming, (LogLevel.INFO, bodyWarning rawBody)])
    else
      (failRequest 400 parseFailureMessage, [incoming])
  else if RpcMode.gt routePermissions m_rpcMode then
    (failRequest 403 (permissionMessage routePermissions), [incoming])
  else
    match handler () with
    | .result error statusCode content =>
      if error.isError then
        ({ status := 400, content := some (errorEnvelope error) }, [incoming])
      else
        ({ status := statusCode, content := content }, [incoming])
    | .invalidArgument msg =>
      (failRequest 400 msg,
       [incoming,
        (LogLevel.FATAL, "Caught JSON exception, likely missing required json parameter: " ++ msg)])
    | .otherException msg =>
      (failRequest 500 ("Internal server error: " ++ msg),
       [incoming, (LogLevel.FATAL, "Caught unexpected exception: " ++ msg)])

/-- Environment for `sendTransaction`: the hex codec, the content hash
(`podToHex (cn_fast_hash bytes)`), and the Ledger's pool-admission call
`addTransactionToPool : bytes -> (success, error)`. -/
structure SendTxEnv where
  fromHex : String → Option (List Nat)
  hashHex : List Nat → String
  addTransactionToPool : List Nat → Bool × String

/-- Result of one `sendTransaction` call: the `(Error, statusCode)` pair it
returns, the JSON content it set, and the transactions it asked the
SyncManager to relay (each `relayTransactions` call contributes its list). -/
structure SendTxOutput where
  error : Error
  statusCode : Nat
  content : JValue
  relayed : List (List Nat)

/-- `RpcServer::sendTransaction`: decode `tx_as_hex`, hash, attempt pool
admission, relay on success; every branch returns `{SUCCESS, 200}` and
reports failure in-body. `rawData` is the `tx_as_hex` string from the body. -/
def sendTransaction (env : SendTxEnv) (rawData : String) : SendTxOutput :=
  match env.fromHex rawData with
  | none =>
    { error := SUCCESS, statusCode := 200,
      content := .obj [("status", .str "Failed"),
                       ("error", .str "Failed to parse transaction from hex buffer")],
      relayed := [] }
  | some transaction =>
    let transactionHash := env.hashHex transaction
    match env.addTransactionToPool transaction with
    | (false, error) =>
      { error := SUCCESS, statusCode := 200,
        content := .obj [("transactionHash", .str transactionHash),
                         ("status", .str "Failed"),
                         ("error", .str error)],
        relayed := [] }
    | (true, _) =>
      { error := SUCCESS, statusCode := 200,
        content := .obj [("transactionHash", .str transactionHash),
                         ("status", .str "OK"),
                         ("error", .str "")],
        relayed := [transaction] }

/-- Environment for `getRandomOuts`: the Ledger's
`getRandomOutputs : (amount, count) -> (success, error, globalIndexes, publicKeys)`
(the public keys already rendered by `podToHex`) and the currency formatter
`Utilities::formatAmount`. -/
structure RandomOutsEnv where
  getRandomOutputs : Nat → Nat → Bool × String × List Nat × List String
  formatAmount : Nat → String

/-- Modulus of the `static_cast<uint16_t>` applied to `numOutputs`. -/
def UINT16_MOD : Nat := 65536

/-- The shortfall message streamed when fewer outputs than requested came back. -/
def shortfallMessage (env : RandomOutsEnv) (amount numOutputs found : Nat) : String :=
  "Failed to get enough matching outputs for amount " ++ toString amount ++ " (" ++
  env.formatAmount amount ++ "). Requested outputs: " ++ toString numOutputs ++
  ", found outputs: " ++ toString found ++
  ". Further explanation here: https://gist.github.com/zpalmtree/80b3e80463225bcfb8f8432043cb594c" ++
  "\n" ++
  "Note: If you are a public node operator, you can safely ignore this message. " ++
  "It is only relevant to the user sending the transaction."

/-- The per-amount JSON entry emitted on the success path. -/
def randomOutsEntry (amount : Nat) (globalIndexes : List Nat) (publicKeys : List String) : JValue :=
  .obj [("amount", .num amount),
        ("outs", .arr ((globalIndexes.zip publicKeys).map (fun p =>
          .obj [("global_amount_index", .num p.1), ("out_key", .str p.2)])))]

/-- Result of one `getRandomOuts` call: the `(Error, statusCode)` pair, the JSON
content (none on the early-return paths, which skip `set_content`), and the
`(amount, count)` arguments of every Ledger `getRandomOutputs` call made. -/
structure RandomOutsOutput where
  error : Error
  statusCode : Nat
  content : Option JValue
  requests : List (Nat × Nat)

/-- Loop body of `RpcServer::getRandomOuts` over the `amounts` array, with the
accumulated per-amount entries and Ledger requests (both in reverse order). -/
def randomOutsGo (env : RandomOutsEnv) (numOutputs : Nat) :
    List Nat → List JValue → List (Nat × Nat) → RandomOutsOutput
  | [], entries, reqs =>
    { error := SUCCESS, statusCode := 200,
      content := some (.obj [("outs", .arr entries.reverse), ("status", .str "OK")]),
      requests := reqs.reverse }
  | amount :: rest, entries, reqs =>
    let requested := numOutputs % UINT16_MOD
    let reqs1 := (amount, requested) :: reqs
    match env.getRandomOutputs amount requested with
    | (false, errMsg, _, _) =>
      { error := ⟨CANT_GET_FAKE_OUTPUTS, errMsg⟩, statusCode := 200,
        content := none, requests := reqs1.reverse }
    | (true, _, globalIndexes, publicKeys) =>
      if globalIndexes.length ≠ numOutputs then
        { error := ⟨CANT_GET_FAKE_OUTPUTS,
                    shortfallMessage env amount numOutputs globalIndexes.length⟩,
          statusCode := 200, content := none, requests := reqs1.reverse }
      else
        randomOutsGo env numOutputs rest
          (randomOutsEntry amount globalIndexes publicKeys :: entries) reqs1

/-- `RpcServer::getRandomOuts`: `numOutputs` is the 64-bit `outs_count` read
from the body, `amounts` the numeric `amounts` array. -/
def getRandomOuts (env : RandomOutsEnv) (numOutputs : Nat) (amounts : List Nat) :
    RandomOutsOutput :=
  randomOutsGo env numOutputs amounts [] []

/-- 2^64, the modulus of C++ `uint64_t` arithmetic. -/
def U64 : Nat := 2 ^ 64

/-- Wrapping 64-bit subtraction, as C++ `uint64_t` `a - b`. -/
def sub64 (a b : Nat) : Nat := (a % U64 + (U64 - b % U64)) % U64

/-- Modelled from the spec: the fixed target block time
`CryptoNote::parameters::DIFFICULTY_TARGET`, declared outside the shown
sources; the theorems below do not depend on its concrete value. -/
def DIFFICULTY_TARGET : Nat := 30

/-- Environment for `info`: the values read from the Ledger, PeerNet and
SyncManager collaborators and the external version/fork constants. -/
structure InfoEnv where
  getTopBlockIndex : Nat
  getDifficultyForNextBlock : Nat
  getBlockchainTransactionCount : Nat
  getPoolTransactionCount : Nat
  getAlternativeBlockCount : Nat
  getStartTime : Nat
  connectionsCount : Nat
  outgoingConnectionsCount : Nat
  whitePeersCount : Nat
  grayPeersCount : Nat
  getBlockchainHeight : Nat
  getObservedHeight : Nat
  majorVersion : Nat
  minorVersion : Nat
  forkHeights : List Nat
  supportedHeight : Nat
  projectVersion : String

/-- `RpcServer::info`: pure read aggregation; returns `(Error, statusCode)`
and the JSON body it sets. -/
def info (env : InfoEnv) : Error × Nat × JValue :=
  let height := env.getTopBlockIndex + 1
  let networkHeight := max 1 env.getBlockchainHeight
  let difficulty := env.getDifficultyForNextBlock
  (SUCCESS, 200,
   .obj [("height", .num height),
         ("difficulty", .num difficulty),
         ("tx_count", .num (sub64 env.getBlockchainTransactionCount height)),
         ("tx_pool_size", .num env.getPoolTransactionCount),
         ("alt_blocks_count", .num env.getAlternativeBlockCount),
         ("outgoing_connections_count", .num env.outgoingConnectionsCount),
         ("incoming_connections_count",
          .num (sub64 env.connectionsCount env.outgoingConnectionsCount)),
         ("white_peerlist_size", .num env.whitePeersCount),
         ("grey_peerlist_size", .num env.grayPeersCount),
         ("last_known_block_index", .num (max 1 env.getObservedHeight - 1)),
         ("network_height", .num networkHeight),
         ("upgrade_heights", .arr (env.forkHeights.map .num)),
         ("supported_height", .num env.supportedHeight),
         ("hashrate", .num (difficulty / DIFFICULTY_TARGET)),
         ("synced", .bool (height == networkHeight)),
         ("major_version", .num env.majorVersion),
         ("minor_version", .num env.minorVersion),
         ("version", .str env.projectVersion),
         ("status", .str "OK"),
         ("start_time", .num env.getStartTime)])

/-!
Helper lemmas about the loop of `getRandomOuts` and about wrapping subtraction.
-/

/-- Stepping the `getRandomOuts` loop past an amount for which the Ledger
returned success with exactly the untruncated requested count. -/
theorem randomOutsGo_pass (env : RandomOutsEnv) (n x : Nat) (rest : List Nat)
    (entries : List JValue) (reqs : List (Nat × Nat))
    (hs : (env.getRandomOutputs x (n % UINT16_MOD)).1 = true)
    (hl : (env.getRandomOutputs x (n % UINT16_MOD)).2.2.1.length = n) :
    randomOutsGo env n (x :: rest) entries reqs =
      randomOutsGo env n rest
        (randomOutsEntry x (env.getRandomOutputs x (n % UINT16_MOD)).2.2.1
          (env.getRandomOutputs x (n % UINT16_MOD)).2.2.2 :: entries)
        ((x, n % UINT16_MOD) :: reqs) := by
  rcases h : env.getRandomOutputs x (n % UINT16_MOD) with ⟨s, e, idxs, keys⟩
  rw [h] at hs hl
  subst hs
  simp [randomOutsGo, h, hl]

/-- The `getRandomOuts` loop aborts with the shortfall error when the Ledger
returns success with a count different from the untruncated requested count. -/
theorem randomOutsGo_shortfall (env : RandomOutsEnv) (n a : Nat) (post : List Nat)
    (entries : List JValue) (reqs : List (Nat × Nat)) (k : Nat)
    (hs : (env.getRandomOutputs a (n % UINT16_MOD)).1 = true)
    (hk : (env.getRandomOutputs a (n % UINT16_MOD)).2.2.1.length = k)
    (hne : k ≠ n) :
    randomOutsGo env n (a :: post) entries reqs =
      { error := ⟨CANT_GET_FAKE_OUTPUTS, shortfallMessage env a n k⟩,
        statusCode := 200, content := none,
        requests := ((a, n % UINT16_MOD) :: reqs).reverse } := by
  rcases h : env.getRandomOutputs a (n % UINT16_MOD) with ⟨s, e, idxs, keys⟩
  rw [h] at hs hk
  subst hs
  subst hk
  simp [randomOutsGo, h, hne]

/-- When every amount before `a` is fully satisfiable and `a` comes back with
`k ≠ n` outputs, the whole loop yields the shortfall error and sets no content,
whatever was accumulated so far. -/
theorem randomOutsGo_error_content (env : RandomOutsEnv) (n : Nat) (pre : List Nat)
    (a : Nat) (post : List Nat) (k : Nat)
    (hpre : ∀ x ∈ pre, (env.getRandomOutputs x (n % UINT16_MOD)).1 = true ∧
                       (env.getRandomOutputs x (n % UINT16_MOD)).2.2.1.length = n)
    (hs : (env.getRandomOutputs a (n % UINT16_MOD)).1 = true)
    (hk : (env.getRandomOutputs a (n % UINT16_MOD)).2.2.1.length = k)
    (hne : k ≠ n) :
    ∀ entries reqs,
      (randomOutsGo env n (pre ++ a :: post) entries reqs).error =
        ⟨CANT_GET_FAKE_OUTPUTS, shortfallMessage env a n k⟩ ∧
      (randomOutsGo env n (pre ++ a :: post) entries reqs).content = none := by
  induction pre with
  | nil =>
    intro entries reqs
    rw [List.nil_append, randomOutsGo_shortfall env n a post entries reqs k hs hk hne]
    exact ⟨rfl, rfl⟩
  | cons x xs ih =>
    intro entries reqs
    have hx := hpre x (by simp)
    rw [List.cons_append, randomOutsGo_pass env n x _ entries reqs hx.1 hx.2]
    exact ih (fun y hy => hpre y (by simp [hy])) _ _

/-- Every Ledger request the loop makes carries the truncated count
`n % 2^16` (beyond whatever was already accumulated). -/
theorem randomOutsGo_requests_trunc (env : RandomOutsEnv) (n : Nat) :
    ∀ (amounts : List Nat) (entries : List JValue) (reqs : List (Nat × Nat)),
      ∀ r ∈ (randomOutsGo env n amounts entries reqs).requests,
        r ∈ reqs ∨ r.2 = n % UINT16_MOD := by
  intro amounts
  induction amounts with
  | nil =>
    intro entries reqs r hr
    simp [randomOutsGo] at hr
    exact Or.inl hr
  | cons x xs ih =>
    intro entries reqs r hr
    rw [randomOutsGo] at hr
    rcases h : env.getRandomOutputs x (n % UINT16_MOD) with ⟨s, e, idxs, keys⟩
    rw [h] at hr
    cases s with
    | false =>
      simp at hr
      rcases hr with hr | hr
      · exact Or.inl hr
      · exact Or.inr (by simp [hr])
    | true =>
      by_cases hl : idxs.length ≠ n
      · simp [hl] at hr
        rcases hr with hr | hr
        · exact Or.inl hr
        · exact Or.inr (by simp [hr])
      · simp [hl] at hr
        rcases ih _ _ r hr with hin | hres
        · rcases List.mem_cons.mp hin with hr1 | hr2
          · exact Or.inr (by simp [hr1])
          · exact Or.inl hr2
        · exact Or.inr hres

/-- Wrapping 64-bit subtraction agrees with truncated subtraction when no
underflow or overflow occurs. -/
theorem sub64_eq (a b : Nat) (hb : b ≤ a) (ha : a < U64) : sub64 a b = a - b := by
  simp only [sub64, U64] at *
  omega

/-!
Claim theorems.
-/

/-- Concrete Ledger that always reports success with 3 outputs. -/
def c1Env : RandomOutsEnv :=
  { getRandomOutputs := fun _ _ => (true, "", [0, 1, 2], ["k0", "k1", "k2"]),
    formatAmount := fun a => toString a }

/-- C1 counterexample: with `amounts = [100]`, `outs_count = 5` and a Ledger
supplying only 3 outputs, the handler does return the CANT_GET_FAKE_OUTPUTS
error, but the routed response's HTTP status is 400 (the middleware forces 400
on every error result), not 200 as the claim states. -/
theorem c1_counterexample :
    (getRandomOuts c1Env 5 [100]).error.errorCode = CANT_GET_FAKE_OUTPUTS ∧
    (middleware "POST" "/getrandom_outs" RpcMode.Default RpcMode.Default true
      "body" true
      (fun _ => .result (getRandomOuts c1Env 5 [100]).error
        (getRandomOuts c1Env 5 [100]).statusCode
        (getRandomOuts c1Env 5 [100]).content)).1.status = 400 ∧
    (400 : Nat) ≠ 200 :=
  ⟨rfl, rfl, by decide⟩

/-- C1 (amended): when the Ledger returns fewer outputs than `outs_count` for
some amount (all earlier amounts being fully satisfiable), the whole request
aborts with the CANT_GET_FAKE_OUTPUTS error (distinct from the success
sentinel) whose message states the amount, the requested count and the found
count; no per-amount output array is emitted for any amount, and the
middleware turns the error result into the errorCode/errorMessage envelope
with HTTP status 400 (not 200: the handler proposes 200, but the middleware
overrides the status of error results). -/
theorem c1_random_outs_shortfall_amended (env : RandomOutsEnv) (numOutputs : Nat)
    (pre post : List Nat) (a k : Nat) (rawBody : String)
    (hpre : ∀ x ∈ pre, (env.getRandomOutputs x (numOutputs % UINT16_MOD)).1 = true ∧
        (env.getRandomOutputs x (numOutputs % UINT16_MOD)).2.2.1.length = numOutputs)
    (hs : (env.getRandomOutputs a (numOutputs % UINT16_MOD)).1 = true)
    (hk : (env.getRandomOutputs a (numOutputs % UINT16_MOD)).2.2.1.length = k)
    (hne : k ≠ numOutputs) :
    (getRandomOuts env numOutputs (pre ++ a :: post)).error =
      ⟨CANT_GET_FAKE_OUTPUTS, shortfallMessage env a numOutputs k⟩ ∧
    CANT_GET_FAKE_OUTPUTS ≠ 0 ∧
    (getRandomOuts env numOutputs (pre ++ a :: post)).content = none ∧
    (middleware "POST" "/getrandom_outs" RpcMode.Default RpcMode.Default true
      rawBody true
      (fun _ => .result (getRandomOuts env numOutputs (pre ++ a :: post)).error
        (getRandomOuts env numOutputs (pre ++ a :: post)).statusCode
        (getRandomOuts env numOutputs (pre ++ a :: post)).content)).1 =
      ⟨400, some (errorEnvelope
        ⟨CANT_GET_FAKE_OUTPUTS, shortfallMessage env a numOutputs k⟩)⟩ ∧
    (∃ s1 s2 s3 s4, shortfallMessage env a numOutputs k =
      s1 ++ toString a ++ s2 ++ toString numOutputs ++ s3 ++ toString k ++ s4) := by
  obtain ⟨herr, hcont⟩ :=
    randomOutsGo_error_content env numOutputs pre a post k hpre hs hk hne [] []
  refine ⟨herr, by simp [CANT_GET_FAKE_OUTPUTS], hcont, ?_, ?_⟩
  · simp [middleware, getRandomOuts] at *
    simp [herr, Error.isError, CANT_GET_FAKE_OUTPUTS, RpcMode.gt, RpcMode.toNat]
  · refine ⟨"Failed to get enough matching outputs for amount ",
      " (" ++ env.formatAmount a ++ "). Requested outputs: ",
      ", found outputs: ",
      ". Further explanation here: https://gist.github.com/zpalmtree/80b3e80463225bcfb8f8432043cb594c"
        ++ "\n"
        ++ "Note: If you are a public node operator, you can safely ignore this message. "
        ++ "It is only relevant to the user sending the transaction.", ?_⟩
    simp [shortfallMessage, String.append_assoc]

/-- C1 witness: the amended theorem at the concrete shortfall scenario
(`amounts = [100]`, `outs_count = 5`, Ledger supplies 3). -/
theorem c1_witness :
    (getRandomOuts c1Env 5 [100]).error =
      ⟨CANT_GET_FAKE_OUTPUTS, shortfallMessage c1Env 100 5 3⟩ ∧
    CANT_GET_FAKE_OUTPUTS ≠ 0 ∧
    (getRandomOuts c1Env 5 [100]).content = none ∧
    (middleware "POST" "/getrandom_outs" RpcMode.Default RpcMode.Default true
      "body" true
      (fun _ => .result (getRandomOuts c1Env 5 [100]).error
        (getRandomOuts c1Env 5 [100]).statusCode
        (getRandomOuts c1Env 5 [100]).content)).1 =
      ⟨400, some (errorEnvelope ⟨CANT_GET_FAKE_OUTPUTS, shortfallMessage c1Env 100 5 3⟩)⟩ ∧
    (∃ s1 s2 s3 s4, shortfallMessage c1Env 100 5 3 =
      s1 ++ toString 100 ++ s2 ++ toString 5 ++ s3 ++ toString 3 ++ s4) :=
  c1_random_outs_shortfall_amended c1Env 5 [] [] 100 3 "body"
    (by simp) rfl rfl (by decide)

/-- C2: once a request reaches its handler (body gate and permission gate
passed), an error result makes the middleware write the canonical
errorCode/errorMessage body and force status 400, overriding the proposed
status; a success result keeps the handler-proposed status verbatim. -/
theorem c2_middleware_error_status (method path rawBody : String)
    (mode perms : RpcMode) (bodyRequired parseOk : Bool)
    (e : Error) (sc : Nat) (content : Option JValue)
    (hbody : bodyRequired = true → parseOk = true)
    (hperm : RpcMode.gt perms mode = false) :
    (e.isError = true →
      (middleware method path mode perms bodyRequired rawBody parseOk
        (fun _ => .result e sc content)).1 =
          ⟨400, some (errorEnvelope e)⟩) ∧
    (e.isError = false →
      (middleware method path mode perms bodyRequired rawBody parseOk
        (fun _ => .result e sc content)).1 = ⟨sc, content⟩) := by
  constructor <;> intro he <;>
    cases bodyRequired <;> cases parseOk <;>
      simp_all [middleware, hperm]

/-- C2 witness: concrete error result `⟨5, "oops"⟩` and concrete success
result both run through the middleware. -/
theorem c2_witness :
    (Error.isError ⟨5, "oops"⟩ = true →
      (middleware "GET" "/info" RpcMode.Default RpcMode.Default true "{}" true
        (fun _ => .result ⟨5, "oops"⟩ 200 none)).1 =
          ⟨400, some (errorEnvelope ⟨5, "oops"⟩)⟩) ∧
    (Error.isError ⟨5, "oops"⟩ = false →
      (middleware "GET" "/info" RpcMode.Default RpcMode.Default true "{}" true
        (fun _ => .result ⟨5, "oops"⟩ 200 none)).1 = ⟨200, none⟩) :=
  c2_middleware_error_status "GET" "/info" "{}" RpcMode.Default RpcMode.Default
    true true ⟨5, "oops"⟩ 200 none (fun _ => rfl) rfl

/-- C3 counterexample: when the non-empty raw body "a=b" fails to parse, the
returned error message is the diagnostic warning (raw body included) followed
by the fixed parse-failure message — not the same fixed message as in the
empty-body case, because the handler reuses the stream it logged from. -/
theorem c3_counterexample :
    (middleware "POST" "/sendrawtransaction" RpcMode.Default RpcMode.Default
      true "a=b" false (fun _ => .result SUCCESS 200 none)).1.content =
      some (failRequestBody (bodyWarning "a=b" ++ parseFailureMessage)) ∧
    bodyWarning "a=b" ++ parseFailureMessage ≠ parseFailureMessage :=
  ⟨rfl, by decide⟩

/-- C3 (amended): a body-required route whose raw body fails to parse yields
HTTP 400 with the `status: "Failed"` envelope, for any handler; when the raw
body is non-empty, the warning (with the raw body) is logged at INFO level and
the returned error message is that warning followed by the fixed parse-failure
message; when the body is empty the message is the fixed parse-failure message
alone — so the HTTP status is unaffected by the diagnostic, but the message
differs between the two cases. -/
theorem c3_parse_failure_amended (method path rawBody : String)
    (mode perms : RpcMode) (handler : Unit → HandlerOutcome) :
    (middleware method path mode perms true rawBody false handler).1.status = 400 ∧
    (rawBody = "" →
      (middleware method path mode perms true rawBody false handler).1.content =
        some (failRequestBody parseFailureMessage)) ∧
    (rawBody ≠ "" →
      (middleware method path mode perms true rawBody false handler).1.content =
        some (failRequestBody (bodyWarning rawBody ++ parseFailureMessage)) ∧
      (LogLevel.INFO, bodyWarning rawBody) ∈
        (middleware method path mode perms true rawBody false handler).2) := by
  by_cases h : rawBody = "" <;> simp [middleware, failRequest, h]

/-- C3 witness: the amended theorem at the concrete non-empty raw body "a=b". -/
theorem c3_witness :
    (middleware "POST" "/sendrawtransaction" RpcMode.Default RpcMode.Default
      true "a=b" false (fun _ => .result SUCCESS 200 none)).1.status = 400 ∧
    ((middleware "POST" "/sendrawtransaction" RpcMode.Default RpcMode.Default
      true "a=b" false (fun _ => .result SUCCESS 200 none)).1.content =
        some (failRequestBody (bodyWarning "a=b" ++ parseFailureMessage)) ∧
      (LogLevel.INFO, bodyWarning "a=b") ∈
        (middleware "POST" "/sendrawtransaction" RpcMode.Default RpcMode.Default
          true "a=b" false (fun _ => .result SUCCESS 200 none)).2) :=
  ⟨(c3_parse_failure_amended "POST" "/sendrawtransaction" "a=b"
      RpcMode.Default RpcMode.Default (fun _ => .result SUCCESS 200 none)).1,
   (c3_parse_failure_amended "POST" "/sendrawtransaction" "a=b"
      RpcMode.Default RpcMode.Default (fun _ => .result SUCCESS 200 none)).2.2
     (by decide)⟩

/-- C4: for a `sendTransaction` request whose `tx_as_hex` decodes to bytes `B`,
the reported `transactionHash` is the content hash of `B`; the SyncManager
relay fires exactly once when pool admission succeeds and never when it fails;
on admission failure the body reports `status: "Failed"` with the Ledger's
rejection reason; and the routed response stays at HTTP 200 in every case. -/
theorem c4_send_transaction_hash_and_relay (env : SendTxEnv) (rawData : String)
    (B : List Nat) (hhex : env.fromHex rawData = some B) :
    JValue.getField (sendTransaction env rawData).content "transactionHash" =
      some (.str (env.hashHex B)) ∧
    ((env.addTransactionToPool B).1 = true →
      (sendTransaction env rawData).relayed = [B]) ∧
    ((env.addTransactionToPool B).1 = false →
      (sendTransaction env rawData).relayed = [] ∧
      JValue.getField (sendTransaction env rawData).content "status" =
        some (.str "Failed") ∧
      JValue.getField (sendTransaction env rawData).content "error" =
        some (.str (env.addTransactionToPool B).2)) ∧
    (sendTransaction env rawData).error = SUCCESS ∧
    (sendTransaction env rawData).statusCode = 200 ∧
    (middleware "POST" "/sendrawtransaction" RpcMode.Default RpcMode.Default true
      rawData true
      (fun _ => .result (sendTransaction env rawData).error
        (sendTransaction env rawData).statusCode
        (some (sendTransaction env rawData).content))).1.status = 200 := by
  rcases hp : env.addTransactionToPool B with ⟨s, msg⟩
  cases s <;>
    simp [sendTransaction, hhex, hp, JValue.getField, List.lookup, middleware,
      Error.isError, SUCCESS, RpcMode.gt, RpcMode.toNat]

/-- Concrete environment for the C4 witness: `"ab"` decodes to `[1, 2]` and
the pool admits everything. -/
def c4Env : SendTxEnv :=
  { fromHex := fun s => if s = "ab" then some [1, 2] else none,
    hashHex := fun bytes => "hash" ++ toString bytes.length,
    addTransactionToPool := fun _ => (true, "") }

/-- C4 witness: the theorem at the concrete decodable input `"ab"`. -/
theorem c4_witness :
    JValue.getField (sendTransaction c4Env "ab").content "transactionHash" =
      some (.str (c4Env.hashHex [1, 2])) ∧
    ((c4Env.addTransactionToPool [1, 2]).1 = true →
      (sendTransaction c4Env "ab").relayed = [[1, 2]]) ∧
    ((c4Env.addTransactionToPool [1, 2]).1 = false →
      (sendTransaction c4Env "ab").relayed = [] ∧
      JValue.getField (sendTransaction c4Env "ab").content "status" =
        some (.str "Failed") ∧
      JValue.getField (sendTransaction c4Env "ab").content "error" =
        some (.str (c4Env.addTransactionToPool [1, 2]).2)) ∧
    (sendTransaction c4Env "ab").error = SUCCESS ∧
    (sendTransaction c4Env "ab").statusCode = 200 ∧
    (middleware "POST" "/sendrawtransaction" RpcMode.Default RpcMode.Default true
      "ab" true
      (fun _ => .result (sendTransaction c4Env "ab").error
        (sendTransaction c4Env "ab").statusCode
        (some (sendTransaction c4Env "ab").content))).1.status = 200 :=
  c4_send_transaction_hash_and_relay c4Env "ab" [1, 2] (by decide)

/-- C5: a `sendTransaction` request whose `tx_as_hex` does not decode as hex
yields a success-classified result, so the routed response is HTTP 200 with
the in-body `status: "Failed"` envelope and an explanatory error message. -/
theorem c5_send_transaction_bad_hex (env : SendTxEnv) (rawData : String)
    (hhex : env.fromHex rawData = none) :
    (sendTransaction env rawData).error = SUCCESS ∧
    (sendTransaction env rawData).statusCode = 200 ∧
    JValue.getField (sendTransaction env rawData).content "status" =
      some (.str "Failed") ∧
    JValue.getField (sendTransaction env rawData).content "error" =
      some (.str "Failed to parse transaction from hex buffer") ∧
    (middleware "POST" "/sendrawtransaction" RpcMode.Default RpcMode.Default true
      rawData true
      (fun _ => .result (sendTransaction env rawData).error
        (sendTransaction env rawData).statusCode
        (some (sendTransaction env rawData).content))).1 =
      ⟨200, some (sendTransaction env rawData).content⟩ := by
  simp [sendTransaction, hhex, JValue.getField, List.lookup, middleware,
    Error.isError, SUCCESS, RpcMode.gt, RpcMode.toNat]

/-- Concrete environment for the C5 witness: nothing decodes as hex. -/
def c5Env : SendTxEnv :=
  { fromHex := fun _ => none,
    hashHex := fun _ => "unused",
    addTransactionToPool := fun _ => (true, "") }

/-- C5 witness: the theorem at the concrete non-hex input `"zz"`. -/
theorem c5_witness :
    (sendTransaction c5Env "zz").error = SUCCESS ∧
    (sendTransaction c5Env "zz").statusCode = 200 ∧
    JValue.getField (sendTransaction c5Env "zz").content "status" =
      some (.str "Failed") ∧
    JValue.getField (sendTransaction c5Env "zz").content "error" =
      some (.str "Failed to parse transaction from hex buffer") ∧
    (middleware "POST" "/sendrawtransaction" RpcMode.Default RpcMode.Default true
      "zz" true
      (fun _ => .result (sendTransaction c5Env "zz").error
        (sendTransaction c5Env "zz").statusCode
        (some (sendTransaction c5Env "zz").content))).1 =
      ⟨200, some (sendTransaction c5Env "zz").content⟩ :=
  c5_send_transaction_bad_hex c5Env "zz" rfl

/-- C6 counterexample: a pipeline-level parse failure's body is the
`status`/`error` envelope written by `failRequest`, which has neither an
`errorCode` nor an `errorMessage` key — not the envelope the claim states. -/
theorem c6_counterexample :
    (middleware "POST" "/sendrawtransaction" RpcMode.Default RpcMode.Default
      true "" false (fun _ => .result SUCCESS 200 none)).1 =
      failRequest 400 parseFailureMessage ∧
    JValue.getField (failRequestBody parseFailureMessage) "errorCode" = none ∧
    JValue.getField (failRequestBody parseFailureMessage) "errorMessage" = none :=
  ⟨rfl, rfl, rfl⟩

/-- C6 (amended): every pipeline-level failure — body-parse failure,
permission failure, bad-argument exception, or any other exception — produces
the `failRequest` envelope `{"status": "Failed", "error": <string>}` with HTTP
status 400 for parse failures and bad-argument exceptions, 403 for permission
failures and 500 for other exceptions; the `errorCode`/`errorMessage` shape is
used only for error results returned normally by handlers. -/
theorem c6_pipeline_failure_envelope_amended (method path rawBody msg : String)
    (modeA permsA modeD permsD : RpcMode) (handler : Unit → HandlerOutcome)
    (hperm : RpcMode.gt permsA modeA = false)
    (hdeny : RpcMode.gt permsD modeD = true) :
    (∃ m, (middleware method path modeA permsA true rawBody false handler).1 =
      failRequest 400 m) ∧
    (middleware method path modeD permsD false rawBody true handler).1 =
      failRequest 403 (permissionMessage permsD) ∧
    (middleware method path modeA permsA false rawBody true
      (fun _ => .invalidArgument msg)).1 = failRequest 400 msg ∧
    (middleware method path modeA permsA false rawBody true
      (fun _ => .otherException msg)).1 =
      failRequest 500 ("Internal server error: " ++ msg) := by
  refine ⟨?_, ?_, ?_, ?_⟩
  · by_cases h : rawBody = "" <;> simp [middleware, h]
  · simp [middleware, hdeny]
  · simp [middleware, hperm]
  · simp [middleware, hperm]

/-- C6 witness: the amended theorem at concrete modes (Default configured,
BlockExplorerEnabled required for the denied route) and message. -/
theorem c6_witness :
    (∃ m, (middleware "POST" "/sendrawtransaction" RpcMode.Default
      RpcMode.Default true "oops" false
      (fun _ => .result SUCCESS 200 none)).1 = failRequest 400 m) ∧
    (middleware "POST" "/sendrawtransaction" RpcMode.Default
      RpcMode.BlockExplorerEnabled false "oops" true
      (fun _ => .result SUCCESS 200 none)).1 =
      failRequest 403 (permissionMessage RpcMode.BlockExplorerEnabled) ∧
    (middleware "POST" "/sendrawtransaction" RpcMode.Default RpcMode.Default
      false "oops" true (fun _ => .invalidArgument "Missing tx_as_hex")).1 =
      failRequest 400 "Missing tx_as_hex" ∧
    (middleware "POST" "/sendrawtransaction" RpcMode.Default RpcMode.Default
      false "oops" true (fun _ => .otherException "Missing tx_as_hex")).1 =
      failRequest 500 ("Internal server error: " ++ "Missing tx_as_hex") :=
  c6_pipeline_failure_envelope_amended "POST" "/sendrawtransaction" "oops"
    "Missing tx_as_hex" RpcMode.Default RpcMode.Default RpcMode.Default
    RpcMode.BlockExplorerEnabled (fun _ => .result SUCCESS 200 none) rfl rfl

/-- C7: a request that passes the body gate but whose route requires a
permission level strictly above the configured mode is rejected with HTTP 403
and the permission message (a function of the required level, with the
"-detailed" suffix exactly when AllMethodsEnabled is required), and the bound
handler is never invoked: the middleware result does not depend on it. -/
theorem c7_permission_rejection (method path rawBody : String)
    (mode perms : RpcMode) (bodyRequired parseOk : Bool)
    (h1 : bodyRequired = true → parseOk = true)
    (hd : RpcMode.gt perms mode = true)
    (ha hb : Unit → HandlerOutcome) :
    (middleware method path mode perms bodyRequired rawBody parseOk ha).1 =
      failRequest 403 (permissionMessage perms) ∧
    middleware method path mode perms bodyRequired rawBody parseOk ha =
      middleware method path mode perms bodyRequired rawBody parseOk hb ∧
    (perms = RpcMode.AllMethodsEnabled →
      permissionMessage perms =
        "You do not have permission to access this method. Please relaunch your daemon with the --enable-blockexplorer-detailed command line option to access this method.") ∧
    (perms ≠ RpcMode.AllMethodsEnabled →
      permissionMessage perms =
        "You do not have permission to access this method. Please relaunch your daemon with the --enable-blockexplorer command line option to access this method.") := by
  refine ⟨?_, ?_, ?_, ?_⟩
  · cases bodyRequired <;> cases parseOk <;> simp_all [middleware]
  · cases bodyRequired <;> cases parseOk <;> simp_all [middleware]
  · intro he; subst he; rfl
  · intro hne; simp [permissionMessage, hne]

/-- C7 witness: the theorem at the concrete denied configuration — a route
requiring AllMethodsEnabled against a Default-mode server, with two different
handlers. -/
theorem c7_witness :
    (middleware "GET" "/x" RpcMode.Default RpcMode.AllMethodsEnabled false
      "" true (fun _ => .result SUCCESS 200 none)).1 =
      failRequest 403 (permissionMessage RpcMode.AllMethodsEnabled) ∧
    middleware "GET" "/x" RpcMode.Default RpcMode.AllMethodsEnabled false
      "" true (fun _ => .result SUCCESS 200 none) =
      middleware "GET" "/x" RpcMode.Default RpcMode.AllMethodsEnabled false
        "" true (fun _ => .otherException "boom") ∧
    (RpcMode.AllMethodsEnabled = RpcMode.AllMethodsEnabled →
      permissionMessage RpcMode.AllMethodsEnabled =
        "You do not have permission to access this method. Please relaunch your daemon with the --enable-blockexplorer-detailed command line option to access this method.") ∧
    (RpcMode.AllMethodsEnabled ≠ RpcMode.AllMethodsEnabled →
      permissionMessage RpcMode.AllMethodsEnabled =
        "You do not have permission to access this method. Please relaunch your daemon with the --enable-blockexplorer command line option to access this method.") :=
  c7_permission_rejection "GET" "/x" "" RpcMode.Default
    RpcMode.AllMethodsEnabled false true (fun h => by cases h) rfl
    (fun _ => .result SUCCESS 200 none) (fun _ => .otherException "boom")

/-- C8: the info handler always returns success with status 200, and (absent
64-bit underflow/overflow in the two subtractions) its fields satisfy: height
is top index + 1; network_height is max(1, SyncManager height); tx_count is
total transactions minus height; incoming connections are total minus
outgoing; last_known_block_index is max(1, observed height) minus 1; hashrate
is the floor of difficulty over the fixed target; synced is
height == network_height. -/
theorem c8_info_fields (env : InfoEnv)
    (htx : env.getTopBlockIndex + 1 ≤ env.getBlockchainTransactionCount)
    (htx2 : env.getBlockchainTransactionCount < U64)
    (hconn : env.outgoingConnectionsCount ≤ env.connectionsCount)
    (hconn2 : env.connectionsCount < U64) :
    (info env).1 = SUCCESS ∧
    (info env).2.1 = 200 ∧
    JValue.getField (info env).2.2 "height" =
      some (.num (env.getTopBlockIndex + 1)) ∧
    JValue.getField (info env).2.2 "network_height" =
      some (.num (max 1 env.getBlockchainHeight)) ∧
    JValue.getField (info env).2.2 "tx_count" =
      some (.num (env.getBlockchainTransactionCount - (env.getTopBlockIndex + 1))) ∧
    JValue.getField (info env).2.2 "incoming_connections_count" =
      some (.num (env.connectionsCount - env.outgoingConnectionsCount)) ∧
    JValue.getField (info env).2.2 "last_known_block_index" =
      some (.num (max 1 env.getObservedHeight - 1)) ∧
    JValue.getField (info env).2.2 "hashrate" =
      some (.num (env.getDifficultyForNextBlock / DIFFICULTY_TARGET)) ∧
    JValue.getField (info env).2.2 "synced" =
      some (.bool (env.getTopBlockIndex + 1 == max 1 env.getBlockchainHeight)) ∧
    JValue.getField (info env).2.2 "status" = some (.str "OK") := by
  have h1 := sub64_eq env.getBlockchainTransactionCount
    (env.getTopBlockIndex + 1) htx htx2
  have h2 := sub64_eq env.connectionsCount env.outgoingConnectionsCount
    hconn hconn2
  simp [info, JValue.getField, List.lookup, h1, h2, SUCCESS]

/-- Concrete collaborator snapshot for the C8 witness. -/
def c8Env : InfoEnv :=
  { getTopBlockIndex := 9, getDifficultyForNextBlock := 900,
    getBlockchainTransactionCount := 30, getPoolTransactionCount := 4,
    getAlternativeBlockCount := 2, getStartTime := 1111,
    connectionsCount := 8, outgoingConnectionsCount := 3,
    whitePeersCount := 5, grayPeersCount := 6,
    getBlockchainHeight := 12, getObservedHeight := 7,
    majorVersion := 4, minorVersion := 0, forkHeights := [1, 2],
    supportedHeight := 2, projectVersion := "1.0.0" }

/-- C8 witness: the theorem at the concrete collaborator snapshot. -/
theorem c8_witness :
    (info c8Env).1 = SUCCESS ∧
    (info c8Env).2.1 = 200 ∧
    JValue.getField (info c8Env).2.2 "height" =
      some (.num (c8Env.getTopBlockIndex + 1)) ∧
    JValue.getField (info c8Env).2.2 "network_height" =
      some (.num (max 1 c8Env.getBlockchainHeight)) ∧
    JValue.getField (info c8Env).2.2 "tx_count" =
      some (.num (c8Env.getBlockchainTransactionCount -
        (c8Env.getTopBlockIndex + 1))) ∧
    JValue.getField (info c8Env).2.2 "incoming_connections_count" =
      some (.num (c8Env.connectionsCount - c8Env.outgoingConnectionsCount)) ∧
    JValue.getField (info c8Env).2.2 "last_known_block_index" =
      some (.num (max 1 c8Env.getObservedHeight - 1)) ∧
    JValue.getField (info c8Env).2.2 "hashrate" =
      some (.num (c8Env.getDifficultyForNextBlock / DIFFICULTY_TARGET)) ∧
    JValue.getField (info c8Env).2.2 "synced" =
      some (.bool (c8Env.getTopBlockIndex + 1 == max 1 c8Env.getBlockchainHeight)) ∧
    JValue.getField (info c8Env).2.2 "status" = some (.str "OK") :=
  c8_info_fields c8Env (by decide) (by decide) (by decide) (by decide)

/-- C9: `outs_count` is truncated to 16 bits on the way to the Ledger — every
Ledger request made by `getRandomOuts` asks for `outs_count mod 2^16` outputs
— while the count check compares against the untruncated value, so for
`outs_count ≥ 2^16` the truncated request is strictly smaller than
`outs_count` and a Ledger response of exactly the truncated size still aborts
the request with the CANT_GET_FAKE_OUTPUTS shortfall error. -/
theorem c9_outs_count_truncation (env : RandomOutsEnv) (numOutputs a : Nat)
    (rest : List Nat)
    (hn : 2 ^ 16 ≤ numOutputs)
    (hs : (env.getRandomOutputs a (numOutputs % UINT16_MOD)).1 = true)
    (hk : (env.getRandomOutputs a (numOutputs % UINT16_MOD)).2.2.1.length =
      numOutputs % UINT16_MOD) :
    (∀ amounts, ∀ r ∈ (getRandomOuts env numOutputs amounts).requests,
        r.2 = numOutputs % UINT16_MOD) ∧
    numOutputs % UINT16_MOD < numOutputs ∧
    (getRandomOuts env numOutputs (a :: rest)).error =
      ⟨CANT_GET_FAKE_OUTPUTS,
       shortfallMessage env a numOutputs (numOutputs % UINT16_MOD)⟩ := by
  have hlt : numOutputs % UINT16_MOD < numOutputs := by
    have := Nat.mod_lt numOutputs (show 0 < UINT16_MOD by simp [UINT16_MOD])
    simp only [UINT16_MOD] at *
    omega
  refine ⟨?_, hlt, ?_⟩
  · intro amounts r hr
    rcases randomOutsGo_requests_trunc env numOutputs amounts [] [] r hr with h | h
    · simp at h
    · exact h
  · rw [show (a :: rest) = [] ++ a :: rest by rfl] at *
    exact (randomOutsGo_error_content env numOutputs [] a rest
      (numOutputs % UINT16_MOD) (by simp) hs hk (Nat.ne_of_lt hlt) [] []).1

/-- Concrete Ledger for the C9 witness: always succeeds with 2 outputs, the
truncated value of the oversized request 65538. -/
def c9Env : RandomOutsEnv :=
  { getRandomOutputs := fun _ _ => (true, "", [0, 1], ["k0", "k1"]),
    formatAmount := fun a => toString a }

/-- C9 witness: the theorem at `outs_count = 65538 = 2^16 + 2`, whose
truncation is 2, with a Ledger returning exactly 2 outputs. -/
theorem c9_witness :
    (∀ amounts, ∀ r ∈ (getRandomOuts c9Env 65538 amounts).requests,
        r.2 = 65538 % UINT16_MOD) ∧
    65538 % UINT16_MOD < 65538 ∧
    (getRandomOuts c9Env 65538 [100]).error =
      ⟨CANT_GET_FAKE_OUTPUTS,
       shortfallMessage c9Env 100 65538 (65538 % UINT16_MOD)⟩ :=
  c9_outs_count_truncation c9Env 65538 100 [] (by decide) rfl (by decide)

/-- C10: `sendTransaction` writes the computed hash into the body before
attempting pool admission, so on admission failure the `status: "Failed"`
body still opens with the transaction hash, followed by the Ledger's
rejection reason. -/
theorem c10_hash_in_failed_body (env : SendTxEnv) (rawData : String)
    (B : List Nat) (hhex : env.fromHex rawData = some B)
    (hfail : (env.addTransactionToPool B).1 = false) :
    (sendTransaction env rawData).content =
      .obj [("transactionHash", .str (env.hashHex B)),
            ("status", .str "Failed"),
            ("error", .str (env.addTransactionToPool B).2)] := by
  rcases hp : env.addTransactionToPool B with ⟨s, msg⟩
  rw [hp] at hfail
  simp at hfail
  subst hfail
  simp [sendTransaction, hhex, hp]

/-- Concrete environment for the C10 witness: `"ab"` decodes and the pool
rejects everything as a double spend. -/
def c10Env : SendTxEnv :=
  { fromHex := fun s => if s = "ab" then some [1, 2] else none,
    hashHex := fun bytes => "hash" ++ toString bytes.length,
    addTransactionToPool := fun _ => (false, "double spend") }

/-- C10 witness: the theorem at the concrete rejected transaction. -/
theorem c10_witness :
    (sendTransaction c10Env "ab").content =
      .obj [("transactionHash", .str (c10Env.hashHex [1, 2])),
            ("status", .str "Failed"),
            ("error", .str (c10Env.addTransactionToPool [1, 2]).2)] :=
  c10_hash_in_failed_body c10Env "ab" [1, 2] (by decide) rfl

end TreeCoin
